import Mathlib

/-!
# Verification of the barycentric triangle widget

A shallow embedding of `src/cpp-wasm/optimization_triangle.cpp`: a fixed
triangle whose vertices stand for three weights (performance, velocity,
adaptability), with conversion between barycentric and cartesian
coordinates, a point-in-triangle test, nearest-boundary clamping, and a
small pointer-event state machine over a process-wide singleton.

The C++ `double` arithmetic is modelled over `ℚ` (exact arithmetic):
every operation the claims mention is built from +, -, *, /, comparisons,
`min`/`max` and `abs`, except for one `std::sqrt` in `handleMouseDown`,
where the source compares `sqrt(dx*dx + dy*dy) < 15`; since both sides
are nonnegative and squaring is monotone there, the embedding compares
`dx*dx + dy*dy < 225`, the same predicate on the real numbers.  The
literals `0.001`, `0.33`, `0.34` are modelled as the exact rationals
`1/1000`, `33/100`, `34/100`.
-/

/-! ## Data model and operations, translated from the source -/

/-- `struct Point2D`: a pair of coordinates in screen-pixel space. -/
@[ext] structure Point2D where
  x : ℚ
  y : ℚ
  deriving DecidableEq, Repr

/-- `struct BarycentricCoord`: a triple of weights. -/
@[ext] structure BarycentricCoord where
  performance : ℚ
  velocity : ℚ
  adaptability : ℚ
  deriving DecidableEq, Repr

/-- The default `BarycentricCoord()` constructor: (0.33, 0.33, 0.34). -/
def BarycentricCoord.default : BarycentricCoord :=
  ⟨33/100, 33/100, 34/100⟩

/-- `class Triangle`: the three vertices `top`, `left`, `right`. -/
@[ext] structure Triangle where
  top : Point2D
  left : Point2D
  right : Point2D
  deriving DecidableEq, Repr

/-- The `Triangle(canvasWidth, canvasHeight)` constructor with
`padding = 80`. -/
def Triangle.make (canvasWidth canvasHeight : ℚ) : Triangle where
  top := ⟨canvasWidth / 2, 80⟩
  left := ⟨80, canvasHeight - 80⟩
  right := ⟨canvasWidth - 80, canvasHeight - 80⟩

/-- `Triangle::baryToCartesian`: the affine combination of the three
vertices weighted by the barycentric components. -/
def Triangle.baryToCartesian (tri : Triangle) (bc : BarycentricCoord) : Point2D :=
  ⟨bc.performance * tri.top.x + bc.velocity * tri.left.x + bc.adaptability * tri.right.x,
   bc.performance * tri.top.y + bc.velocity * tri.left.y + bc.adaptability * tri.right.y⟩

/-- `Triangle::signedArea`: twice the signed area of the triangle
`p1 p2 p3` (the method does not read any member state, so it is a plain
function here). -/
def signedArea (p1 p2 p3 : Point2D) : ℚ :=
  (p1.x - p3.x) * (p2.y - p3.y) - (p2.x - p3.x) * (p1.y - p3.y)

/-- `Triangle::isInside`: a point is inside (boundary included) iff the
three signed areas against the edges are not of mixed strict sign. -/
def Triangle.isInside (tri : Triangle) (point : Point2D) : Bool :=
  let d1 := signedArea point tri.top tri.left
  let d2 := signedArea point tri.left tri.right
  let d3 := signedArea point tri.right tri.top
  let hasNeg := decide (d1 < 0) || decide (d2 < 0) || decide (d3 < 0)
  let hasPos := decide (d1 > 0) || decide (d2 > 0) || decide (d3 > 0)
  !(hasNeg && hasPos)

/-- `Triangle::projectPointOntoSegment`: orthogonal projection of `p`
onto the segment `a b`, with the parameter clamped to `[0,1]`; a segment
of squared length below `0.001` returns `a` (the method does not read
any member state, so it is a plain function here). -/
def projectPointOntoSegment (p a b : Point2D) : Point2D :=
  let dx := b.x - a.x
  let dy := b.y - a.y
  let lengthSq := dx * dx + dy * dy
  if lengthSq < 1/1000 then a
  else
    let t := ((p.x - a.x) * dx + (p.y - a.y) * dy) / lengthSq
    let t2 := max 0 (min 1 t)
    ⟨a.x + t2 * dx, a.y + t2 * dy⟩

/-- The local `distSq` lambda of `clampToTriangle`. -/
def distSq (a b : Point2D) : ℚ :=
  (b.x - a.x) * (b.x - a.x) + (b.y - a.y) * (b.y - a.y)

/-- `Triangle::clampToTriangle`: identity inside, otherwise the
projection onto the edge of smallest squared distance, the code testing
`d1 <= d2 && d1 <= d3` first and `d2 <= d3` second. -/
def Triangle.clampToTriangle (tri : Triangle) (point : Point2D) : Point2D :=
  if tri.isInside point then point
  else
    let proj1 := projectPointOntoSegment point tri.top tri.left
    let proj2 := projectPointOntoSegment point tri.left tri.right
    let proj3 := projectPointOntoSegment point tri.right tri.top
    let d1 := distSq point proj1
    let d2 := distSq point proj2
    let d3 := distSq point proj3
    if d1 ≤ d2 ∧ d1 ≤ d3 then proj1
    else if d2 ≤ d3 then proj2
    else proj3

/-- `Triangle::cartesianToBary`: clamp to the triangle, replace a total
area below `0.001` in absolute value by `1.0`, divide the three
sub-areas by it and clamp each quotient to `[0,1]` independently. -/
def Triangle.cartesianToBary (tri : Triangle) (point : Point2D) : BarycentricCoord :=
  let clamped := tri.clampToTriangle point
  let totalArea0 := signedArea tri.top tri.left tri.right
  let totalArea := if |totalArea0| < 1/1000 then 1 else totalArea0
  let perf := signedArea clamped tri.left tri.right / totalArea
  let vel := signedArea clamped tri.right tri.top / totalArea
  let adapt := signedArea clamped tri.top tri.left / totalArea
  ⟨max 0 (min 1 perf), max 0 (min 1 vel), max 0 (min 1 adapt)⟩

/-- The global mutable state of the translation unit: `triangle` (a
possibly-null owning pointer), `dotPosition`, `isDragging`. -/
@[ext] structure WidgetState where
  triangle : Option Triangle
  dotPosition : BarycentricCoord
  isDragging : Bool
  deriving DecidableEq, Repr

/-- `CANVAS_WIDTH`. -/
def CANVAS_WIDTH : ℚ := 700

/-- `CANVAS_HEIGHT`. -/
def CANVAS_HEIGHT : ℚ := 550

/-- The state at program start: null triangle, dot at (0.33, 0.33, 0.34),
not dragging. -/
def initialState : WidgetState :=
  ⟨none, ⟨33/100, 33/100, 34/100⟩, false⟩

/-- `init()`: allocates the triangle for the fixed canvas size. -/
def init (s : WidgetState) : WidgetState :=
  { s with triangle := some (Triangle.make CANVAS_WIDTH CANVAS_HEIGHT) }

/-- `cleanup()`: deletes the triangle and nulls the pointer. -/
def cleanup (s : WidgetState) : WidgetState :=
  { s with triangle := none }

/-- `handleMouseDown(mouseX, mouseY)`.  The source compares
`sqrt(dx*dx + dy*dy) < 15`; both sides are nonnegative, so the embedding
compares the squares (`< 225`), an equivalent predicate. -/
def handleMouseDown (mouseX mouseY : ℚ) (s : WidgetState) : WidgetState :=
  match s.triangle with
  | none => s
  | some tri =>
    let mousePos : Point2D := ⟨mouseX, mouseY⟩
    let dotPos := tri.baryToCartesian s.dotPosition
    let dx := mousePos.x - dotPos.x
    let dy := mousePos.y - dotPos.y
    if dx * dx + dy * dy < 225 then
      { s with isDragging := true }
    else if tri.isInside mousePos then
      { s with dotPosition := tri.cartesianToBary mousePos, isDragging := true }
    else s

/-- `handleMouseMove(mouseX, mouseY)`. -/
def handleMouseMove (mouseX mouseY : ℚ) (s : WidgetState) : WidgetState :=
  match s.triangle with
  | none => s
  | some tri =>
    if s.isDragging then
      { s with dotPosition := tri.cartesianToBary ⟨mouseX, mouseY⟩ }
    else s

/-- `handleMouseUp()`. -/
def handleMouseUp (s : WidgetState) : WidgetState :=
  { s with isDragging := false }

/-- `getDotX()`. -/
def getDotX (s : WidgetState) : ℚ :=
  match s.triangle with
  | none => 0
  | some tri => (tri.baryToCartesian s.dotPosition).x

/-- `getDotY()`. -/
def getDotY (s : WidgetState) : ℚ :=
  match s.triangle with
  | none => 0
  | some tri => (tri.baryToCartesian s.dotPosition).y

/-- `getTriangleTopX()`. -/
def getTriangleTopX (s : WidgetState) : ℚ :=
  match s.triangle with
  | none => 0
  | some tri => tri.top.x

/-- `getTriangleTopY()`. -/
def getTriangleTopY (s : WidgetState) : ℚ :=
  match s.triangle with
  | none => 0
  | some tri => tri.top.y

/-- `getTriangleLeftX()`. -/
def getTriangleLeftX (s : WidgetState) : ℚ :=
  match s.triangle with
  | none => 0
  | some tri => tri.left.x

/-- `getTriangleLeftY()`. -/
def getTriangleLeftY (s : WidgetState) : ℚ :=
  match s.triangle with
  | none => 0
  | some tri => tri.left.y

/-- `getTriangleRightX()`. -/
def getTriangleRightX (s : WidgetState) : ℚ :=
  match s.triangle with
  | none => 0
  | some tri => tri.right.x

/-- `getTriangleRightY()`. -/
def getTriangleRightY (s : WidgetState) : ℚ :=
  match s.triangle with
  | none => 0
  | some tri => tri.right.y

/-- `getPerformance()`: reads the stored component directly, with no
null check on the triangle pointer. -/
def getPerformance (s : WidgetState) : ℚ :=
  s.dotPosition.performance

/-- `getVelocity()`: reads the stored component directly, with no null
check on the triangle pointer. -/
def getVelocity (s : WidgetState) : ℚ :=
  s.dotPosition.velocity

/-- `getAdaptability()`: reads the stored component directly, with no
null check on the triangle pointer. -/
def getAdaptability (s : WidgetState) : ℚ :=
  s.dotPosition.adaptability

/-- One call of the exported interface. -/
inductive Cmd where
  | init
  | cleanup
  | mouseDown (x y : ℚ)
  | mouseMove (x y : ℚ)
  | mouseUp
  deriving DecidableEq, Repr

/-- Execute one exported call. -/
def step (s : WidgetState) : Cmd → WidgetState
  | Cmd.init => init s
  | Cmd.cleanup => cleanup s
  | Cmd.mouseDown x y => handleMouseDown x y s
  | Cmd.mouseMove x y => handleMouseMove x y s
  | Cmd.mouseUp => handleMouseUp s

/-- Execute a sequence of exported calls from program start. -/
def run (cs : List Cmd) : WidgetState :=
  cs.foldl step initialState

/-- The fixed triangle built by `init` (canvas 700×550, padding 80). -/
def stdTriangle : Triangle :=
  Triangle.make 700 550

/-- Membership of the closed segment from `a` to `b`, through its
parameter. -/
def onSegment (p a b : Point2D) : Prop :=
  ∃ t : ℚ, 0 ≤ t ∧ t ≤ 1 ∧ p = ⟨a.x + t * (b.x - a.x), a.y + t * (b.y - a.y)⟩

/-- A point of one of the three edges of a triangle. -/
def Triangle.onEdge (tri : Triangle) (p : Point2D) : Prop :=
  onSegment p tri.top tri.left ∨ onSegment p tri.left tri.right ∨
    onSegment p tri.right tri.top

/-- The clamp as the spec words it: an inside point is returned
unchanged; otherwise the projection onto the three edges with minimum
squared distance to the original point is returned, an earlier edge
(top–left, then left–right, then right–top) winning ties. -/
def clampToTriangleSpec (tri : Triangle) (point : Point2D) : Point2D :=
  if tri.isInside point then point
  else
    let proj1 := projectPointOntoSegment point tri.top tri.left
    let proj2 := projectPointOntoSegment point tri.left tri.right
    let proj3 := projectPointOntoSegment point tri.right tri.top
    let d1 := distSq point proj1
    let d2 := distSq point proj2
    let d3 := distSq point proj3
    let m := min d1 (min d2 d3)
    if d1 = m then proj1
    else if d2 = m then proj2
    else proj3

/-- Each barycentric component lies in the unit interval. -/
def inUnitBox (bc : BarycentricCoord) : Prop :=
  0 ≤ bc.performance ∧ bc.performance ≤ 1 ∧ 0 ≤ bc.velocity ∧ bc.velocity ≤ 1 ∧
    0 ≤ bc.adaptability ∧ bc.adaptability ≤ 1

/-! ## Helper lemmas -/

/-- `isInside` accepts a point whose three signed areas are all
nonpositive (`hasPos` is false). -/
theorem isInside_of_nonpos (tri : Triangle) (p : Point2D)
    (h1 : signedArea p tri.top tri.left ≤ 0)
    (h2 : signedArea p tri.left tri.right ≤ 0)
    (h3 : signedArea p tri.right tri.top ≤ 0) :
    tri.isInside p = true := by
  simp only [Triangle.isInside, Bool.not_eq_true', Bool.and_eq_false_iff,
    Bool.or_eq_false_iff, decide_eq_false_iff_not, not_lt]
  right
  exact ⟨⟨h1, h2⟩, h3⟩

/-- `isInside` accepts a point whose three signed areas are all
nonnegative (`hasNeg` is false). -/
theorem isInside_of_nonneg (tri : Triangle) (p : Point2D)
    (h1 : 0 ≤ signedArea p tri.top tri.left)
    (h2 : 0 ≤ signedArea p tri.left tri.right)
    (h3 : 0 ≤ signedArea p tri.right tri.top) :
    tri.isInside p = true := by
  simp only [Triangle.isInside, Bool.not_eq_true', Bool.and_eq_false_iff,
    Bool.or_eq_false_iff, decide_eq_false_iff_not, not_lt]
  left
  exact ⟨⟨h1, h2⟩, h3⟩

/-- The projection always lands on the segment it projects onto. -/
theorem projectPointOntoSegment_onSegment (p a b : Point2D) :
    onSegment (projectPointOntoSegment p a b) a b := by
  simp only [projectPointOntoSegment]
  split_ifs with h
  · exact ⟨0, le_refl 0, by norm_num, by ext <;> simp⟩
  · refine ⟨max 0 (min 1 (((p.x - a.x) * (b.x - a.x) + (p.y - a.y) * (b.y - a.y)) /
      ((b.x - a.x) * (b.x - a.x) + (b.y - a.y) * (b.y - a.y)))), le_max_left 0 _,
      max_le (by norm_num) (min_le_left 1 _), rfl⟩

/-- Any point of an edge is classified inside, whatever the winding
(and even for degenerate triangles). -/
theorem isInside_of_onEdge (tri : Triangle) (p : Point2D) (h : tri.onEdge p) :
    tri.isInside p = true := by
  obtain ⟨T, L, R⟩ := tri
  rcases h with ⟨t, ht0, ht1, hp⟩ | ⟨t, ht0, ht1, hp⟩ | ⟨t, ht0, ht1, hp⟩ <;> subst hp
  · have e1 : signedArea ⟨T.x + t * (L.x - T.x), T.y + t * (L.y - T.y)⟩ T L = 0 := by
      simp only [signedArea]; ring
    have e2 : signedArea ⟨T.x + t * (L.x - T.x), T.y + t * (L.y - T.y)⟩ L R
        = (1 - t) * signedArea T L R := by
      simp only [signedArea]; ring
    have e3 : signedArea ⟨T.x + t * (L.x - T.x), T.y + t * (L.y - T.y)⟩ R T
        = t * signedArea T L R := by
      simp only [signedArea]; ring
    rcases le_total (signedArea T L R) 0 with hS | hS
    · apply isInside_of_nonpos <;> simp only [e1, e2, e3, le_refl]
      · exact mul_nonpos_of_nonneg_of_nonpos (by linarith) hS
      · exact mul_nonpos_of_nonneg_of_nonpos ht0 hS
    · apply isInside_of_nonneg <;> simp only [e1, e2, e3, le_refl]
      · exact mul_nonneg (by linarith) hS
      · exact mul_nonneg ht0 hS
  · have e1 : signedArea ⟨L.x + t * (R.x - L.x), L.y + t * (R.y - L.y)⟩ T L
        = t * signedArea T L R := by
      simp only [signedArea]; ring
    have e2 : signedArea ⟨L.x + t * (R.x - L.x), L.y + t * (R.y - L.y)⟩ L R = 0 := by
      simp only [signedArea]; ring
    have e3 : signedArea ⟨L.x + t * (R.x - L.x), L.y + t * (R.y - L.y)⟩ R T
        = (1 - t) * signedArea T L R := by
      simp only [signedArea]; ring
    rcases le_total (signedArea T L R) 0 with hS | hS
    · apply isInside_of_nonpos <;> simp only [e1, e2, e3, le_refl]
      · exact mul_nonpos_of_nonneg_of_nonpos ht0 hS
      · exact mul_nonpos_of_nonneg_of_nonpos (by linarith) hS
    · apply isInside_of_nonneg <;> simp only [e1, e2, e3, le_refl]
      · exact mul_nonneg ht0 hS
      · exact mul_nonneg (by linarith) hS
  · have e1 : signedArea ⟨R.x + t * (T.x - R.x), R.y + t * (T.y - R.y)⟩ T L
        = (1 - t) * signedArea T L R := by
      simp only [signedArea]; ring
    have e2 : signedArea ⟨R.x + t * (T.x - R.x), R.y + t * (T.y - R.y)⟩ L R
        = t * signedArea T L R := by
      simp only [signedArea]; ring
    have e3 : signedArea ⟨R.x + t * (T.x - R.x), R.y + t * (T.y - R.y)⟩ R T = 0 := by
      simp only [signedArea]; ring
    rcases le_total (signedArea T L R) 0 with hS | hS
    · apply isInside_of_nonpos <;> simp only [e1, e2, e3, le_refl]
      · exact mul_nonpos_of_nonneg_of_nonpos (by linarith) hS
      · exact mul_nonpos_of_nonneg_of_nonpos ht0 hS
    · apply isInside_of_nonneg <;> simp only [e1, e2, e3, le_refl]
      · exact mul_nonneg (by linarith) hS
      · exact mul_nonneg ht0 hS

/-- The `[0,1]` clamp fixes a value already in `[0,1]`. -/
theorem clamp01_of_mem (x : ℚ) (h0 : 0 ≤ x) (h1 : x ≤ 1) : max 0 (min 1 x) = x := by
  rw [min_eq_right h1, max_eq_right h0]

/-- The `[0,1]` clamp is nonnegative. -/
theorem clamp01_nonneg (x : ℚ) : 0 ≤ max 0 (min 1 x) := le_max_left 0 _

/-- The `[0,1]` clamp is at most one. -/
theorem clamp01_le_one (x : ℚ) : max 0 (min 1 x) ≤ 1 :=
  max_le (by norm_num) (min_le_left 1 x)

/-- Every result of `cartesianToBary` has all components in `[0,1]`. -/
theorem cartesianToBary_inUnitBox (tri : Triangle) (point : Point2D) :
    inUnitBox (tri.cartesianToBary point) := by
  simp only [Triangle.cartesianToBary, inUnitBox]
  exact ⟨clamp01_nonneg _, clamp01_le_one _, clamp01_nonneg _, clamp01_le_one _,
    clamp01_nonneg _, clamp01_le_one _⟩

/-- One interface call keeps the marker components in `[0,1]`. -/
theorem step_preserves_inUnitBox (s : WidgetState) (c : Cmd)
    (h : inUnitBox s.dotPosition) : inUnitBox (step s c).dotPosition := by
  cases c with
  | init => exact h
  | cleanup => exact h
  | mouseUp => exact h
  | mouseDown x y =>
    cases ht : s.triangle with
    | none =>
      simp only [step, handleMouseDown, ht]
      exact h
    | some tri =>
      simp only [step, handleMouseDown, ht]
      split_ifs
      · exact h
      · exact cartesianToBary_inUnitBox tri _
      · exact h
  | mouseMove x y =>
    cases ht : s.triangle with
    | none =>
      simp only [step, handleMouseMove, ht]
      exact h
    | some tri =>
      simp only [step, handleMouseMove, ht]
      split_ifs
      · exact cartesianToBary_inUnitBox tri _
      · exact h

/-! ## The claims -/

/-- Claim C1: for every barycentric triple whose components each lie in
`[0,1]` and sum to 1, composing `baryToCartesian` with `cartesianToBary`
on the triangle built from canvas 700×550 with padding 80 returns the
triple again — in this exact model the round-trip is exact, which is in
particular within any floating-point tolerance. -/
theorem bary_roundtrip (p v a : ℚ) (hp0 : 0 ≤ p) (hp1 : p ≤ 1) (hv0 : 0 ≤ v)
    (hv1 : v ≤ 1) (ha0 : 0 ≤ a) (ha1 : a ≤ 1) (hsum : p + v + a = 1) :
    stdTriangle.cartesianToBary (stdTriangle.baryToCartesian ⟨p, v, a⟩) = ⟨p, v, a⟩ := by
  have ha' : a = 1 - p - v := by linarith
  subst ha'
  have hinside : stdTriangle.isInside
      (stdTriangle.baryToCartesian ⟨p, v, 1 - p - v⟩) = true := by
    apply isInside_of_nonpos <;>
    · simp only [stdTriangle, Triangle.make, Triangle.baryToCartesian, signedArea]
      nlinarith
  have hclamp : stdTriangle.clampToTriangle (stdTriangle.baryToCartesian ⟨p, v, 1 - p - v⟩)
      = stdTriangle.baryToCartesian ⟨p, v, 1 - p - v⟩ := by
    unfold Triangle.clampToTriangle
    rw [if_pos hinside]
  simp only [Triangle.cartesianToBary]
  rw [hclamp]
  simp only [stdTriangle, Triangle.make, Triangle.baryToCartesian, signedArea]
  norm_num
  have e1 : 540 * (p * 80 + v * 470 + (1 - p - v) * 470 - 470) / (-210600 : ℚ) = p := by
    rw [div_eq_iff (by norm_num : (-210600 : ℚ) ≠ 0)]; ring
  have e2 : ((p * 350 + v * 80 + (1 - p - v) * 620 - 350) * 390 -
      270 * (p * 80 + v * 470 + (1 - p - v) * 470 - 80)) / (-210600 : ℚ) = v := by
    rw [div_eq_iff (by norm_num : (-210600 : ℚ) ≠ 0)]; ring
  have e3 : (-((p * 350 + v * 80 + (1 - p - v) * 620 - 80) * 390) -
      270 * (p * 80 + v * 470 + (1 - p - v) * 470 - 470)) / (-210600 : ℚ) = 1 - p - v := by
    rw [div_eq_iff (by norm_num : (-210600 : ℚ) ≠ 0)]; ring
  rw [e1, e2, e3]
  exact ⟨clamp01_of_mem p hp0 hp1, clamp01_of_mem v hv0 hv1,
    clamp01_of_mem _ (by linarith) (by linarith)⟩

/-- Witness for C1 at the centroid (1/3, 1/3, 1/3). -/
theorem bary_roundtrip_witness :
    (0 : ℚ) ≤ 1/3 ∧ (1/3 : ℚ) ≤ 1 ∧ (1/3 + 1/3 + 1/3 : ℚ) = 1 ∧
    stdTriangle.cartesianToBary (stdTriangle.baryToCartesian ⟨1/3, 1/3, 1/3⟩)
      = ⟨1/3, 1/3, 1/3⟩ :=
  ⟨by norm_num, by norm_num, by norm_num,
    bary_roundtrip (1/3) (1/3) (1/3) (by norm_num) (by norm_num) (by norm_num)
      (by norm_num) (by norm_num) (by norm_num) (by norm_num)⟩

/-- Claim C2: for every point, `clampToTriangle` is the identity on
inside points and otherwise returns the projection of minimum squared
distance among the three edges, ties broken in favor of the earlier edge
(top–left, left–right, right–top) — stated as agreement with
`clampToTriangleSpec`, the definition written from the spec's words. -/
theorem clampToTriangle_meets_spec (tri : Triangle) (point : Point2D) :
    (tri.isInside point = true → tri.clampToTriangle point = point) ∧
    tri.clampToTriangle point = clampToTriangleSpec tri point := by
  constructor
  · intro h
    unfold Triangle.clampToTriangle
    rw [if_pos h]
  · by_cases h : tri.isInside point = true
    · unfold Triangle.clampToTriangle clampToTriangleSpec
      rw [if_pos h, if_pos h]
    · simp only [Triangle.clampToTriangle, clampToTriangleSpec, h, if_false]
      set d1 := distSq point (projectPointOntoSegment point tri.top tri.left) with hd1
      set d2 := distSq point (projectPointOntoSegment point tri.left tri.right) with hd2
      set d3 := distSq point (projectPointOntoSegment point tri.right tri.top) with hd3
      by_cases hA : d1 ≤ d2 ∧ d1 ≤ d3
      · have hm : min d1 (min d2 d3) = d1 := min_eq_left (le_min hA.1 hA.2)
        rw [if_pos hA, hm, if_pos rfl]
      · rw [if_neg hA]
        push_neg at hA
        by_cases h23 : d2 ≤ d3
        · rw [if_pos h23]
          have h21 : d2 < d1 := by
            rcases le_or_lt d1 d2 with h' | h'
            · have := hA h'
              linarith
            · exact h'
          have hm : min d1 (min d2 d3) = d2 := by
            rw [min_eq_left h23, min_eq_right (le_of_lt h21)]
          rw [hm, if_neg (ne_of_gt h21), if_pos rfl]
        · rw [if_neg h23]
          push_neg at h23
          have h31 : d3 < d1 := by
            rcases le_or_lt d1 d2 with h' | h'
            · exact hA h'
            · linarith
          have hm : min d1 (min d2 d3) = d3 := by
            rw [min_eq_right (le_of_lt h23), min_eq_right (le_of_lt h31)]
          rw [hm, if_neg (ne_of_gt h31), if_neg (ne_of_gt h23)]

/-- Witness for C2 at the interior point (350, 300) of the standard
triangle. -/
theorem clampToTriangle_meets_spec_witness :
    stdTriangle.isInside ⟨350, 300⟩ = true ∧
    stdTriangle.clampToTriangle ⟨350, 300⟩ = ⟨350, 300⟩ ∧
    stdTriangle.clampToTriangle ⟨350, 300⟩ = clampToTriangleSpec stdTriangle ⟨350, 300⟩ := by
  have h : stdTriangle.isInside ⟨350, 300⟩ = true := by
    norm_num [Triangle.isInside, signedArea, stdTriangle, Triangle.make]
  exact ⟨h, (clampToTriangle_meets_spec stdTriangle ⟨350, 300⟩).1 h,
    (clampToTriangle_meets_spec stdTriangle ⟨350, 300⟩).2⟩

/-- Claim C3: for every point outside the triangle, `clampToTriangle`
lands exactly on one of the three edges and the result is classified
inside. -/
theorem clampToTriangle_lands_on_edge (tri : Triangle) (point : Point2D)
    (h : tri.isInside point = false) :
    tri.onEdge (tri.clampToTriangle point) ∧
    tri.isInside (tri.clampToTriangle point) = true := by
  have hmem : tri.onEdge (tri.clampToTriangle point) := by
    simp only [Triangle.clampToTriangle, h, Bool.false_eq_true, if_false]
    split_ifs
    · exact Or.inl (projectPointOntoSegment_onSegment point tri.top tri.left)
    · exact Or.inr (Or.inl (projectPointOntoSegment_onSegment point tri.left tri.right))
    · exact Or.inr (Or.inr (projectPointOntoSegment_onSegment point tri.right tri.top))
  exact ⟨hmem, isInside_of_onEdge tri _ hmem⟩

/-- Witness for C3 at the outside point (0, 0). -/
theorem clampToTriangle_lands_on_edge_witness :
    stdTriangle.isInside ⟨0, 0⟩ = false ∧
    (stdTriangle.onEdge (stdTriangle.clampToTriangle ⟨0, 0⟩) ∧
      stdTriangle.isInside (stdTriangle.clampToTriangle ⟨0, 0⟩) = true) := by
  have h : stdTriangle.isInside ⟨0, 0⟩ = false := by
    norm_num [Triangle.isInside, signedArea, stdTriangle, Triangle.make]
  exact ⟨h, clampToTriangle_lands_on_edge stdTriangle ⟨0, 0⟩ h⟩

/-- Claim C4: for every point and every vertex configuration (degenerate
ones included), `cartesianToBary` divides only by a nonzero denominator —
an absolute total area below 0.001 is replaced by 1 — all its components
lie in `[0,1]`, and a projection onto a segment of squared length below
0.001 returns the segment start instead of dividing. -/
theorem cartesianToBary_total (tri : Triangle) (p a b : Point2D)
    (hdeg : (b.x - a.x) * (b.x - a.x) + (b.y - a.y) * (b.y - a.y) < 1/1000) :
    inUnitBox (tri.cartesianToBary p) ∧
    (if |signedArea tri.top tri.left tri.right| < 1/1000 then (1 : ℚ)
      else signedArea tri.top tri.left tri.right) ≠ 0 ∧
    (|signedArea tri.top tri.left tri.right| < 1/1000 →
      (if |signedArea tri.top tri.left tri.right| < 1/1000 then (1 : ℚ)
        else signedArea tri.top tri.left tri.right) = 1) ∧
    projectPointOntoSegment p a b = a := by
  refine ⟨cartesianToBary_inUnitBox tri p, ?_, fun h => if_pos h, ?_⟩
  · by_cases h : |signedArea tri.top tri.left tri.right| < 1/1000
    · rw [if_pos h]
      norm_num
    · rw [if_neg h]
      intro h0
      apply h
      rw [h0]
      norm_num
  · simp only [projectPointOntoSegment]
    rw [if_pos hdeg]

/-- Witness for C4 on the fully degenerate triangle at (0,0) with the
point (5,5) and the zero-length segment from (0,0) to (0,0). -/
theorem cartesianToBary_total_witness :
    ((0 : ℚ) - 0) * (0 - 0) + ((0 : ℚ) - 0) * (0 - 0) < 1/1000 ∧
    (inUnitBox ((⟨⟨0, 0⟩, ⟨0, 0⟩, ⟨0, 0⟩⟩ : Triangle).cartesianToBary ⟨5, 5⟩) ∧
      (if |signedArea (⟨0, 0⟩ : Point2D) ⟨0, 0⟩ ⟨0, 0⟩| < 1/1000 then (1 : ℚ)
        else signedArea (⟨0, 0⟩ : Point2D) ⟨0, 0⟩ ⟨0, 0⟩) ≠ 0 ∧
      (|signedArea (⟨0, 0⟩ : Point2D) ⟨0, 0⟩ ⟨0, 0⟩| < 1/1000 →
        (if |signedArea (⟨0, 0⟩ : Point2D) ⟨0, 0⟩ ⟨0, 0⟩| < 1/1000 then (1 : ℚ)
          else signedArea (⟨0, 0⟩ : Point2D) ⟨0, 0⟩ ⟨0, 0⟩) = 1) ∧
      projectPointOntoSegment ⟨5, 5⟩ ⟨0, 0⟩ ⟨0, 0⟩ = ⟨0, 0⟩) :=
  ⟨by norm_num,
    cartesianToBary_total ⟨⟨0, 0⟩, ⟨0, 0⟩, ⟨0, 0⟩⟩ ⟨5, 5⟩ ⟨0, 0⟩ ⟨0, 0⟩ (by norm_num)⟩

/-- Claim C5: `handleMouseDown` is a no-op without a triangle; with one,
a click within squared distance 225 (distance 15) of the marker's
cartesian position only sets the drag flag, a click inside the triangle
beyond that radius moves the marker to `cartesianToBary` of the click
and sets the drag flag, and any other click changes nothing. -/
theorem handleMouseDown_cases (mouseX mouseY : ℚ) (s : WidgetState) :
    (s.triangle = none → handleMouseDown mouseX mouseY s = s) ∧
    ∀ tri, s.triangle = some tri →
      ((mouseX - (tri.baryToCartesian s.dotPosition).x) *
          (mouseX - (tri.baryToCartesian s.dotPosition).x) +
        (mouseY - (tri.baryToCartesian s.dotPosition).y) *
          (mouseY - (tri.baryToCartesian s.dotPosition).y) < 225 →
        handleMouseDown mouseX mouseY s = { s with isDragging := true }) ∧
      (¬((mouseX - (tri.baryToCartesian s.dotPosition).x) *
          (mouseX - (tri.baryToCartesian s.dotPosition).x) +
        (mouseY - (tri.baryToCartesian s.dotPosition).y) *
          (mouseY - (tri.baryToCartesian s.dotPosition).y) < 225) →
        tri.isInside ⟨mouseX, mouseY⟩ = true →
        handleMouseDown mouseX mouseY s =
          { s with dotPosition := tri.cartesianToBary ⟨mouseX, mouseY⟩,
                   isDragging := true }) ∧
      (¬((mouseX - (tri.baryToCartesian s.dotPosition).x) *
          (mouseX - (tri.baryToCartesian s.dotPosition).x) +
        (mouseY - (tri.baryToCartesian s.dotPosition).y) *
          (mouseY - (tri.baryToCartesian s.dotPosition).y) < 225) →
        tri.isInside ⟨mouseX, mouseY⟩ = false →
        handleMouseDown mouseX mouseY s = s) := by
  constructor
  · intro h
    simp only [handleMouseDown, h]
  · intro tri htri
    refine ⟨?_, ?_, ?_⟩
    · intro hdist
      simp only [handleMouseDown, htri]
      rw [if_pos hdist]
    · intro hdist hin
      simp only [handleMouseDown, htri]
      rw [if_neg hdist, if_pos hin]
    · intro hdist hout
      simp only [handleMouseDown, htri]
      rw [if_neg hdist, if_neg (by simp [hout])]

/-- Witness for C5: with the triangle pointer null, a click is a
no-op. -/
theorem handleMouseDown_cases_witness :
    initialState.triangle = none ∧ handleMouseDown 0 0 initialState = initialState :=
  ⟨rfl, (handleMouseDown_cases 0 0 initialState).1 rfl⟩

/-- Claim C6: every point of the triangle's boundary is classified
inside — in particular the three vertices — for any vertex configuration
and hence for either winding direction. -/
theorem isInside_boundary_and_vertices (tri : Triangle) (p : Point2D) :
    (tri.onEdge p → tri.isInside p = true) ∧
    tri.isInside tri.top = true ∧ tri.isInside tri.left = true ∧
    tri.isInside tri.right = true := by
  refine ⟨isInside_of_onEdge tri p, ?_, ?_, ?_⟩
  · exact isInside_of_onEdge tri tri.top
      (Or.inl ⟨0, le_refl 0, by norm_num, by ext <;> ring⟩)
  · exact isInside_of_onEdge tri tri.left
      (Or.inl ⟨1, by norm_num, le_refl 1, by ext <;> ring⟩)
  · exact isInside_of_onEdge tri tri.right
      (Or.inr (Or.inr ⟨0, le_refl 0, by norm_num, by ext <;> ring⟩))

/-- Witness for C6 at the midpoint (350, 470) of the bottom edge of the
standard triangle. -/
theorem isInside_boundary_and_vertices_witness :
    stdTriangle.onEdge ⟨350, 470⟩ ∧ stdTriangle.isInside ⟨350, 470⟩ = true := by
  have hedge : stdTriangle.onEdge ⟨350, 470⟩ :=
    Or.inr (Or.inl ⟨1/2, by norm_num, by norm_num, by
      ext <;> norm_num [stdTriangle, Triangle.make]⟩)
  exact ⟨hedge, (isInside_boundary_and_vertices stdTriangle ⟨350, 470⟩).1 hedge⟩

/-- Claim C7: along every sequence of exported calls from the initial
state, each stored barycentric component of the marker stays in
`[0,1]`. -/
theorem run_inUnitBox (cs : List Cmd) : inUnitBox (run cs).dotPosition := by
  have gen : ∀ (l : List Cmd) (s : WidgetState), inUnitBox s.dotPosition →
      inUnitBox (l.foldl step s).dotPosition := by
    intro l
    induction l with
    | nil => exact fun s h => h
    | cons c l ih =>
      intro s h
      exact ih (step s c) (step_preserves_inUnitBox s c h)
  apply gen
  norm_num [initialState, inUnitBox]

/-- Counterexample to C8 as stated: in the uninitialized start state the
weight getter `getPerformance` returns the stored 0.33, not the sentinel
0. -/
theorem uninit_weight_getter_not_zero :
    initialState.triangle = none ∧ getPerformance initialState ≠ 0 := by
  refine ⟨rfl, ?_⟩
  norm_num [getPerformance, initialState]

/-- Claim C8 (amended): whenever no geometry instance exists, the marker
getters and the six vertex getters return the sentinel 0, while the
three weight getters — which have no null check — return the stored
barycentric components unchanged. -/
theorem uninit_getters (s : WidgetState) (h : s.triangle = none) :
    getDotX s = 0 ∧ getDotY s = 0 ∧
    getTriangleTopX s = 0 ∧ getTriangleTopY s = 0 ∧
    getTriangleLeftX s = 0 ∧ getTriangleLeftY s = 0 ∧
    getTriangleRightX s = 0 ∧ getTriangleRightY s = 0 ∧
    getPerformance s = s.dotPosition.performance ∧
    getVelocity s = s.dotPosition.velocity ∧
    getAdaptability s = s.dotPosition.adaptability := by
  simp only [getDotX, getDotY, getTriangleTopX, getTriangleTopY, getTriangleLeftX,
    getTriangleLeftY, getTriangleRightX, getTriangleRightY, getPerformance,
    getVelocity, getAdaptability, h]
  norm_num

/-- Witness for C8 (amended) at the initial state. -/
theorem uninit_getters_witness :
    initialState.triangle = none ∧
    (getDotX initialState = 0 ∧ getDotY initialState = 0 ∧
      getTriangleTopX initialState = 0 ∧ getTriangleTopY initialState = 0 ∧
      getTriangleLeftX initialState = 0 ∧ getTriangleLeftY initialState = 0 ∧
      getTriangleRightX initialState = 0 ∧ getTriangleRightY initialState = 0 ∧
      getPerformance initialState = initialState.dotPosition.performance ∧
      getVelocity initialState = initialState.dotPosition.velocity ∧
      getAdaptability initialState = initialState.dotPosition.adaptability) :=
  ⟨rfl, uninit_getters initialState rfl⟩

/-- Claim C9: with canvas 700×550 and padding 80 the vertices are
top=(350,80), left=(80,470), right=(620,470); after
`init(); pointerDown(350,80); pointerUp()` the marker getters return
(350, 80) and the weights are (1, 0, 0) — exactly, in this model. -/
theorem end_to_end_top_vertex :
    stdTriangle.top = ⟨350, 80⟩ ∧ stdTriangle.left = ⟨80, 470⟩ ∧
    stdTriangle.right = ⟨620, 470⟩ ∧
    getDotX (run [Cmd.init, Cmd.mouseDown 350 80, Cmd.mouseUp]) = 350 ∧
    getDotY (run [Cmd.init, Cmd.mouseDown 350 80, Cmd.mouseUp]) = 80 ∧
    getPerformance (run [Cmd.init, Cmd.mouseDown 350 80, Cmd.mouseUp]) = 1 ∧
    getVelocity (run [Cmd.init, Cmd.mouseDown 350 80, Cmd.mouseUp]) = 0 ∧
    getAdaptability (run [Cmd.init, Cmd.mouseDown 350 80, Cmd.mouseUp]) = 0 := by
  have hrun : run [Cmd.init, Cmd.mouseDown 350 80, Cmd.mouseUp]
      = ⟨some stdTriangle, ⟨1, 0, 0⟩, false⟩ := by
    norm_num [run, step, init, cleanup, handleMouseDown, handleMouseUp, initialState,
      CANVAS_WIDTH, CANVAS_HEIGHT, stdTriangle, Triangle.make, Triangle.baryToCartesian,
      Triangle.cartesianToBary, Triangle.clampToTriangle, Triangle.isInside, signedArea]
  rw [hrun]
  norm_num [stdTriangle, Triangle.make, getDotX, getDotY, getPerformance, getVelocity,
    getAdaptability, Triangle.baryToCartesian]

/-- Claim C10: `handleMouseUp` only clears the dragging flag; the
triangle instance (hence its vertices) and the marker's stored
barycentric coordinate are untouched, in every state. -/
theorem mouseUp_only_clears_dragging (s : WidgetState) :
    (handleMouseUp s).triangle = s.triangle ∧
    (handleMouseUp s).dotPosition = s.dotPosition ∧
    (handleMouseUp s).isDragging = false :=
  ⟨rfl, rfl, rfl⟩
